import Mathlib

/-!
Shallow embedding of `src/src/pages/SettingsPage.jsx`: the LocationManager
and AppearanceSettings components of the settings page, and the Overview
dashboard component.  JS numbers are modelled as rationals (every numeric
literal and count occurring here is exact in ℚ); a JS number that may be
NaN is modelled as `Option ℚ` with `none` for NaN.  Remote calls are
modelled by passing their outcome (`Except String α`) into the handler;
the handler result records the new component state, which remote call (if
any) was issued, and the toast messages shown.
-/

/-- JS truthiness of a nullable string: `null` and the empty string are
falsy, every other string is truthy. -/
def jsTruthy : Option String → Bool
  | none => false
  | some s => !(s == "")

/-- Accumulates a digit list into a natural number, most significant first. -/
def digitsToNat (ds : List Char) : Nat :=
  ds.foldl (fun n c => 10 * n + (c.toNat - '0'.toNat)) 0

/-- Models the JS `parseFloat` builtin on plain decimal numerals: optional
leading spaces, optional sign, integer digits, optional fraction after a
dot; any trailing characters are ignored, and `none` (NaN) is returned when
no digits are found.  Exponent forms are not modelled. -/
def jsParseFloat (s : String) : Option ℚ :=
  let cs := s.data.dropWhile (fun c => c == ' ')
  let signAndRest : ℚ × List Char :=
    match cs with
    | '-' :: rest => (-1, rest)
    | '+' :: rest => (1, rest)
    | _ => (1, cs)
  let intDigits := signAndRest.2.takeWhile Char.isDigit
  let afterInt := signAndRest.2.dropWhile Char.isDigit
  let fracDigits : List Char :=
    match afterInt with
    | '.' :: r => r.takeWhile Char.isDigit
    | _ => []
  if intDigits.isEmpty && fracDigits.isEmpty then none
  else
    some (signAndRest.1 *
      ((digitsToNat intDigits : ℚ) +
        (digitsToNat fracDigits : ℚ) / (10 ^ fracDigits.length)))

/-- Rendering of a stored numeric value into the text form field, standing
for the JS `toString` call in `handleEdit`. -/
def numToString (q : ℚ) : String :=
  toString q

/-- A location record as held in the remote store and in the local list:
`id` stands for the `$id` document field. -/
structure Location where
  id : String
  Latitude : ℚ
  Longitude : ℚ
deriving Repr, DecidableEq

/-- The payload built by `handleSubmit` from the form fields; each field is
`parseFloat` of the corresponding text input. -/
structure LocationData where
  Latitude : Option ℚ
  Longitude : Option ℚ
deriving Repr, DecidableEq

/-- The two text inputs of the location form. -/
structure FormData where
  Latitude : String
  Longitude : String
deriving Repr, DecidableEq

/-- Local state of the LocationManager component. -/
structure LMState where
  locations : List Location
  formData : FormData
  editingLocationId : Option String
deriving Repr, DecidableEq

/-- The remote mutation a LocationManager handler issues. -/
inductive LMCall where
  | add (data : LocationData)
  | update (id : String) (data : LocationData)
  | delete (id : String)
deriving Repr, DecidableEq

/-- Result of running a LocationManager handler: the new state, the remote
call issued (none when no call was made), and the toast messages shown
(loading toasts excluded; only the terminal success or error message). -/
structure LMResult where
  state : LMState
  call : Option LMCall
  toasts : List String
deriving Repr, DecidableEq

/-- The `else` branch of `handleSubmit`: `addLocation` is called; on success
the returned record is prepended and the form is reset, on failure the state
is left unchanged and the error message is shown. -/
def submitAdd (s : LMState) (data : LocationData)
    (remote : Except String Location) : LMResult :=
  match remote with
  | .ok newLocation =>
      { state :=
          { locations := newLocation :: s.locations
            formData := { Latitude := "", Longitude := "" }
            editingLocationId := none }
        call := some (.add data)
        toasts := ["Location added!"] }
  | .error msg =>
      { state := s, call := some (.add data), toasts := [msg] }

/-- The `if (editingLocationId)` branch of `handleSubmit`: `updateLocation`
is called with the editing id; on success every list entry whose id equals
the editing id is replaced by the returned record and the form is reset, on
failure the state is left unchanged and the error message is shown. -/
def submitUpdate (s : LMState) (eid : String) (data : LocationData)
    (remote : Except String Location) : LMResult :=
  match remote with
  | .ok updated =>
      { state :=
          { locations :=
              s.locations.map (fun loc => if loc.id = eid then updated else loc)
            formData := { Latitude := "", Longitude := "" }
            editingLocationId := none }
        call := some (.update eid data)
        toasts := ["Location updated!"] }
  | .error msg =>
      { state := s, call := some (.update eid data), toasts := [msg] }

/-- `handleSubmit`: parses both form fields with `parseFloat`, then issues
an update when `editingLocationId` is truthy (a non-null, non-empty string)
and a create otherwise.  `remote` is the outcome of whichever remote call
is issued. -/
def handleSubmit (s : LMState) (remote : Except String Location) : LMResult :=
  let locationData : LocationData :=
    { Latitude := jsParseFloat s.formData.Latitude
      Longitude := jsParseFloat s.formData.Longitude }
  match s.editingLocationId with
  | some eid =>
      if eid = "" then submitAdd s locationData remote
      else submitUpdate s eid locationData remote
  | none => submitAdd s locationData remote

/-- `handleEdit`: records the clicked location as being edited and fills
the form fields with the string renderings of its stored coordinates. -/
def handleEdit (s : LMState) (location : Location) : LMState :=
  { s with
      editingLocationId := some location.id
      formData :=
        { Latitude := numToString location.Latitude
          Longitude := numToString location.Longitude } }

/-- `handleCancelEdit`: clears the editing id and the form fields. -/
def handleCancelEdit (s : LMState) : LMState :=
  { s with
      editingLocationId := none
      formData := { Latitude := "", Longitude := "" } }

/-- `handleDelete`: when the confirmation prompt is declined nothing
happens and no remote call is made; when accepted, `deleteLocation` is
called and on success every entry with the targeted id is filtered out of
the list, on failure the state is left unchanged and the error message is
shown. -/
def handleDelete (s : LMState) (locationId : String) (confirmed : Bool)
    (remote : Except String Unit) : LMResult :=
  if confirmed then
    match remote with
    | .ok _ =>
        { state :=
            { s with
                locations :=
                  s.locations.filter (fun loc => decide (loc.id ≠ locationId)) }
          call := some (.delete locationId)
          toasts := ["Location deleted."] }
    | .error msg =>
        { state := s, call := some (.delete locationId), toasts := [msg] }
  else
    { state := s, call := none, toasts := [] }

/-- Environment of the AppearanceSettings component: the React `theme`
state, the persisted `localStorage` key `theme` (`none` when absent), the
`dark` class flag on the document root, and the current OS dark-scheme
preference (`matchMedia` result). -/
structure ThemeEnv where
  theme : String
  storedTheme : Option String
  rootDark : Bool
  systemDark : Bool
deriving Repr, DecidableEq

/-- `handleThemeChange`: records the choice in React state; for `system`
the persisted key is removed and the root flag is set to the OS preference
at that instant, otherwise the choice is persisted and the root flag is set
exactly when the choice is `dark`. -/
def handleThemeChange (env : ThemeEnv) (newTheme : String) : ThemeEnv :=
  let env1 := { env with theme := newTheme }
  if newTheme = "system" then
    { env1 with storedTheme := none, rootDark := env1.systemDark }
  else
    { env1 with
        storedTheme := some newTheme
        rootDark := (newTheme = "dark") }

/-- The media-query `change` listener registered by AppearanceSettings: the
OS preference becomes `newPref`, then the handler sets the root flag to the
new preference only when no theme is persisted (the stored key is falsy). -/
def onSystemThemeChange (env : ThemeEnv) (newPref : Bool) : ThemeEnv :=
  let env1 := { env with systemDark := newPref }
  if jsTruthy env1.storedTheme then env1
  else { env1 with rootDark := env1.systemDark }

/-- A student record as used by the Overview aggregates: `Status` is the
grouping field and `Course` holds the `$id` of the enrolled course when the
`Course` relation is present (`s.Course?.$id`). -/
structure Student where
  id : String
  Status : String
  Course : Option String
deriving Repr, DecidableEq

/-- A course record: `id` stands for `$id`. -/
structure Course where
  id : String
  Programme : String
deriving Repr, DecidableEq

/-- An attendance record: `Marked_at` is the raw timestamp string. -/
structure AttendanceRecord where
  Marked_at : String
  Status : String
deriving Repr, DecidableEq

/-- The object `{present, absent, total}` computed for todays attendance. -/
structure TodaysAttendance where
  present : Nat
  absent : Nat
  total : Nat
deriving Repr, DecidableEq

/-- One `{name, value}` datum of a chart series. -/
structure ChartEntry where
  name : String
  value : Nat
deriving Repr, DecidableEq

/-- The `stats` object assembled by `fetchStatistics`. -/
structure Stats where
  totalStudents : Nat
  totalCourses : Nat
  todaysAttendance : TodaysAttendance
  courseDistribution : List ChartEntry
  statusDistribution : List ChartEntry
deriving Repr, DecidableEq

/-- The todays-attendance aggregate: `toDate` stands for the JS
`new Date(x).toDateString()` conversion of a timestamp to a calendar-day
string, and `today` for `new Date().toDateString()`.  Records of the
current day are selected first, then counted by status. -/
def todaysAttendance (toDate : String → String) (today : String)
    (attendance : List AttendanceRecord) : TodaysAttendance :=
  let todaysRecords :=
    attendance.filter (fun r => decide (toDate r.Marked_at = today))
  { present := (todaysRecords.filter (fun r => decide (r.Status = "Present"))).length
    absent := (todaysRecords.filter (fun r => decide (r.Status = "Absent"))).length
    total := todaysRecords.length }

/-- Count of students whose course reference equals the given course id. -/
def enrolledCount (students : List Student) (course : Course) : Nat :=
  (students.filter (fun s => decide (s.Course = some course.id))).length

/-- The per-course enrollment series: each course is mapped to its
programme name paired with its enrolled-student count, and entries with a
zero count are then filtered away. -/
def courseDistribution (courses : List Course) (students : List Student) :
    List ChartEntry :=
  (courses.map (fun course =>
      { name := course.Programme
        value := enrolledCount students course })).filter
    (fun c => decide (0 < c.value))

/-- One step of the `reduce` building the per-status counts, modelling the
JS object as an association list in key insertion order. -/
def statusFold (acc : List (String × Nat)) (s : Student) : List (String × Nat) :=
  if acc.any (fun p => p.1 = s.Status) then
    acc.map (fun p => if p.1 = s.Status then (p.1, p.2 + 1) else p)
  else
    acc ++ [(s.Status, 1)]

/-- The per-status series: `Object.entries` of the reduced counts, mapped
to chart data. -/
def statusDistribution (students : List Student) : List ChartEntry :=
  (students.foldl statusFold []).map (fun p => { name := p.1, value := p.2 })

/-- The five aggregates computed by `fetchStatistics` from the fetched
collections. -/
def computeStats (toDate : String → String) (today : String)
    (students : List Student) (courses : List Course)
    (attendance : List AttendanceRecord) : Stats :=
  { totalStudents := students.length
    totalCourses := courses.length
    todaysAttendance := todaysAttendance toDate today attendance
    courseDistribution := courseDistribution courses students
    statusDistribution := statusDistribution students }

/-- Local state of the Overview component. -/
structure OverviewState where
  stats : Option Stats
  loading : Bool
  error : Option String
deriving Repr, DecidableEq

/-- The response of `getStudents`, whose `documents` field may be absent. -/
structure StudentsResponse where
  documents : Option (List Student)
deriving Repr, DecidableEq

/-- The static message stored by the catch branch of `fetchStatistics`. -/
def dashboardErrorMsg : String :=
  "Failed to load dashboard data. Please try refreshing the page."

/-- True exactly on a rejected remote outcome. -/
def isErr {α : Type} : Except String α → Bool
  | .error _ => true
  | .ok _ => false

/-- `fetchStatistics`: the three fetches are awaited together, so the first
branch runs only when all three resolve; each collection falls back to `[]`
when absent, the aggregates are computed and stored.  When any fetch
rejects, the catch branch stores the static error message and the stats are
left untouched.  The finally branch clears `loading` either way. -/
def fetchStatistics (toDate : String → String) (today : String)
    (s0 : OverviewState)
    (studentsR : Except String StudentsResponse)
    (coursesR : Except String (Option (List Course)))
    (attendanceR : Except String (Option (List AttendanceRecord))) :
    OverviewState :=
  match studentsR, coursesR, attendanceR with
  | .ok sr, .ok cr, .ok ar =>
      let students := sr.documents.getD []
      let courses := cr.getD []
      let attendance := ar.getD []
      { s0 with
          stats := some (computeStats toDate today students courses attendance)
          loading := false }
  | _, _, _ =>
      { s0 with error := some dashboardErrorMsg, loading := false }

/-- What the Overview component renders. -/
inductive OverviewView where
  | spinner
  | errorBanner (msg : String)
  | dashboard (stats : Option Stats)
deriving Repr, DecidableEq

/-- The render order of Overview: the spinner while loading, then the error
banner when the error state is truthy, then the page whose dashboard body
is present only when `stats` is non-null. -/
def renderOverview (st : OverviewState) : OverviewView :=
  if st.loading then .spinner
  else if jsTruthy st.error then .errorBanner (st.error.getD "")
  else .dashboard st.stats

/-- The state of Overview at mount, before any fetch resolves. -/
def overviewInitial : OverviewState :=
  { stats := none, loading := true, error := none }

/-! Helper lemmas shared by the claim theorems. -/

theorem jsParseFloat_12_34 : jsParseFloat "12.34" = some (12.34 : ℚ) := by
  have h : jsParseFloat "12.34" =
      some ((1 : ℚ) * ((digitsToNat ['1', '2'] : ℚ) +
        (digitsToNat ['3', '4'] : ℚ) /
          10 ^ (['3', '4'] : List Char).length)) := rfl
  have h12 : digitsToNat ['1', '2'] = 12 := rfl
  have h34 : digitsToNat ['3', '4'] = 34 := rfl
  rw [h, h12, h34]
  norm_num

theorem jsParseFloat_56_78 : jsParseFloat "56.78" = some (56.78 : ℚ) := by
  have h : jsParseFloat "56.78" =
      some ((1 : ℚ) * ((digitsToNat ['5', '6'] : ℚ) +
        (digitsToNat ['7', '8'] : ℚ) /
          10 ^ (['7', '8'] : List Char).length)) := rfl
  have h56 : digitsToNat ['5', '6'] = 56 := rfl
  have h78 : digitsToNat ['7', '8'] = 78 := rfl
  rw [h, h56, h78]
  norm_num

theorem handleSubmit_error_state (s : LMState) (msg : String) :
    (handleSubmit s (.error msg)).state = s := by
  unfold handleSubmit
  cases s.editingLocationId with
  | none => rfl
  | some eid => by_cases h : eid = "" <;> simp [h, submitAdd, submitUpdate]

theorem handleSubmit_error_toasts (s : LMState) (msg : String) :
    (handleSubmit s (.error msg)).toasts = [msg] := by
  unfold handleSubmit
  cases s.editingLocationId with
  | none => rfl
  | some eid => by_cases h : eid = "" <;> simp [h, submitAdd, submitUpdate]

theorem handleSubmit_ok_reset (s : LMState) (returned : Location) :
    (handleSubmit s (.ok returned)).state.formData =
        { Latitude := "", Longitude := "" } ∧
      (handleSubmit s (.ok returned)).state.editingLocationId = none := by
  unfold handleSubmit
  cases s.editingLocationId with
  | none => exact ⟨rfl, rfl⟩
  | some eid => by_cases h : eid = "" <;> simp [h, submitAdd, submitUpdate]

/-- C1: the todays-attendance aggregate counts as present exactly the
records whose Status is Present and whose timestamp falls on the current
calendar day, and as absent exactly those with Status Absent on the current
calendar day; on the three-record example with two records of the current
day and one of the previous day, the counts are 1 and 1 with the older
record excluded. -/
theorem todaysAttendance_spec :
    (∀ (toDate : String → String) (today : String)
        (attendance : List AttendanceRecord),
      (todaysAttendance toDate today attendance).present =
        attendance.countP
          (fun r => decide (r.Status = "Present") &&
            decide (toDate r.Marked_at = today)) ∧
      (todaysAttendance toDate today attendance).absent =
        attendance.countP
          (fun r => decide (r.Status = "Absent") &&
            decide (toDate r.Marked_at = today))) ∧
    todaysAttendance (fun s => s) "today"
        [{ Marked_at := "today", Status := "Present" },
         { Marked_at := "today", Status := "Absent" },
         { Marked_at := "yesterday", Status := "Present" }] =
      { present := 1, absent := 1, total := 2 } := by
  constructor
  · intro toDate today attendance
    constructor <;>
      simp [todaysAttendance, List.countP_eq_length_filter]
  · decide

/-- C2 counterexample: a course with no enrolled students produces no entry
in the enrollment distribution, so the distribution does not contain one
entry per course. -/
theorem courseDistribution_zero_counterexample :
    courseDistribution [{ id := "c1", Programme := "CS" }] [] = [] ∧
    ({ name := "CS", value := 0 } : ChartEntry) ∉
      courseDistribution [{ id := "c1", Programme := "CS" }] [] := by
  exact ⟨rfl, by decide⟩

/-- C2 amended: the per-course enrollment distribution pairs each course
with the count of students whose course reference equals its identifier,
but keeps only the courses whose count is positive: courses with zero
enrolled students are omitted. -/
theorem courseDistribution_positive_spec (courses : List Course)
    (students : List Student) :
    courseDistribution courses students =
      (courses.filter (fun c => decide (0 < enrolledCount students c))).map
        (fun c => { name := c.Programme, value := enrolledCount students c }) := by
  unfold courseDistribution
  induction courses with
  | nil => rfl
  | cons c rest ih =>
      by_cases h : 0 < enrolledCount students c <;>
        simp [List.filter_cons, h, ih]

/-- C3: when the remote call of a LocationManager mutation rejects, the
local location list (indeed the whole local state) is left as it was before
the handler ran, and the rejection message is the notification shown; the
delete case is taken with the confirmation accepted so that the remote call
is actually issued. -/
theorem mutation_rejection_spec (s : LMState) (msg lid : String) :
    ((handleSubmit s (.error msg)).state = s ∧
      (handleSubmit s (.error msg)).toasts = [msg]) ∧
    ((handleDelete s lid true (.error msg)).state = s ∧
      (handleDelete s lid true (.error msg)).toasts = [msg]) := by
  exact ⟨⟨handleSubmit_error_state s msg, handleSubmit_error_toasts s msg⟩,
    rfl, rfl⟩

/-- C4: with the form holding 12.34 and 56.78 and no editing id set,
submitting issues the create call with both strings parsed as numbers, and
on success the returned record is prepended to the unchanged rest of the
list. -/
theorem add_submit_spec (s : LMState) (newLoc : Location)
    (hform : s.formData = { Latitude := "12.34", Longitude := "56.78" })
    (hedit : s.editingLocationId = none) :
    (handleSubmit s (.ok newLoc)).call =
      some (.add { Latitude := some (12.34 : ℚ), Longitude := some (56.78 : ℚ) }) ∧
    (handleSubmit s (.ok newLoc)).state.locations = newLoc :: s.locations := by
  unfold handleSubmit
  rw [hedit, hform]
  simp [submitAdd, jsParseFloat_12_34, jsParseFloat_56_78]

/-- Sample LocationManager state for the C4 witness. -/
def lmStateC4 : LMState :=
  { locations := []
    formData := { Latitude := "12.34", Longitude := "56.78" }
    editingLocationId := none }

/-- Sample record returned by the create call in the C4 witness. -/
def locC4 : Location := { id := "a1", Latitude := 12.34, Longitude := 56.78 }

/-- C4 witness at a concrete state. -/
theorem add_submit_spec_witness :
    (handleSubmit lmStateC4 (.ok locC4)).call =
      some (.add { Latitude := some (12.34 : ℚ), Longitude := some (56.78 : ℚ) }) ∧
    (handleSubmit lmStateC4 (.ok locC4)).state.locations =
      locC4 :: lmStateC4.locations :=
  add_submit_spec lmStateC4 locC4 rfl rfl

/-- C5: clicking edit on a listed location fills the form with the string
renderings of its stored coordinates and records its id as the editing id;
the following submit issues the update call (not the create call) with that
same id, and on success every list entry bearing that id is replaced by the
returned record while all other entries are unchanged in place. -/
theorem edit_update_spec (s : LMState) (loc updated : Location)
    (_hmem : loc ∈ s.locations) (hid : loc.id ≠ "") :
    (handleEdit s loc).formData =
      { Latitude := numToString loc.Latitude
        Longitude := numToString loc.Longitude } ∧
    (handleEdit s loc).editingLocationId = some loc.id ∧
    (∃ d, (handleSubmit (handleEdit s loc) (.ok updated)).call =
        some (.update loc.id d)) ∧
    (handleSubmit (handleEdit s loc) (.ok updated)).state.locations =
      s.locations.map (fun l => if l.id = loc.id then updated else l) := by
  have hsub : handleSubmit (handleEdit s loc) (.ok updated) =
      submitUpdate (handleEdit s loc) loc.id
        { Latitude := jsParseFloat (numToString loc.Latitude)
          Longitude := jsParseFloat (numToString loc.Longitude) }
        (.ok updated) := by
    unfold handleSubmit
    simp [handleEdit, hid]
  refine ⟨rfl, rfl,
    ⟨{ Latitude := jsParseFloat (numToString loc.Latitude)
       Longitude := jsParseFloat (numToString loc.Longitude) }, ?_⟩, ?_⟩
  · rw [hsub]
    rfl
  · rw [hsub]
    simp [submitUpdate, handleEdit]

/-- Sample stored location for the C5 witness. -/
def locC5 : Location := { id := "b1", Latitude := 1, Longitude := 2 }

/-- Sample updated record returned by the update call in the C5 witness. -/
def updatedC5 : Location := { id := "b1", Latitude := 3, Longitude := 4 }

/-- Sample LocationManager state for the C5 witness. -/
def lmStateC5 : LMState :=
  { locations := [locC5]
    formData := { Latitude := "", Longitude := "" }
    editingLocationId := none }

/-- C5 witness at a concrete state. -/
theorem edit_update_spec_witness :
    (handleEdit lmStateC5 locC5).formData =
      { Latitude := numToString locC5.Latitude
        Longitude := numToString locC5.Longitude } ∧
    (handleEdit lmStateC5 locC5).editingLocationId = some locC5.id ∧
    (∃ d, (handleSubmit (handleEdit lmStateC5 locC5) (.ok updatedC5)).call =
        some (.update locC5.id d)) ∧
    (handleSubmit (handleEdit lmStateC5 locC5) (.ok updatedC5)).state.locations =
      lmStateC5.locations.map
        (fun l => if l.id = locC5.id then updatedC5 else l) :=
  edit_update_spec lmStateC5 locC5 updatedC5 (List.mem_singleton.mpr rfl)
    (by decide)

/-- C6: deleting with the confirmation accepted and a resolved remote call
issues the delete call and yields the original list with exactly the
entries bearing the targeted id removed: the result is a sublist of the
original (so the surviving entries keep their order), contains no entry
with that id, and retains every other entry with its multiplicity;
declining the confirmation leaves the state unchanged, issues no remote
call and shows no notification. -/
theorem delete_spec (s : LMState) (lid : String)
    (_hmem : lid ∈ s.locations.map Location.id) :
    ((handleDelete s lid true (.ok ())).state.locations.Sublist s.locations ∧
      (∀ l ∈ (handleDelete s lid true (.ok ())).state.locations, l.id ≠ lid) ∧
      (∀ l : Location, l.id ≠ lid →
        (handleDelete s lid true (.ok ())).state.locations.count l =
          s.locations.count l) ∧
      (handleDelete s lid true (.ok ())).call = some (.delete lid)) ∧
    (∀ remote, (handleDelete s lid false remote).state = s ∧
      (handleDelete s lid false remote).call = none ∧
      (handleDelete s lid false remote).toasts = []) := by
  refine ⟨⟨?_, ?_, ?_, rfl⟩, fun remote => ⟨rfl, rfl, rfl⟩⟩
  · exact List.filter_sublist s.locations
  · intro l hl
    have := (List.mem_filter.mp hl).2
    simpa using this
  · intro l hne
    simp [handleDelete]
    exact List.count_filter (by simpa using hne)

/-- Sample LocationManager state for the C6 witness. -/
def lmStateC6 : LMState :=
  { locations := [{ id := "d1", Latitude := 1, Longitude := 2 }]
    formData := { Latitude := "", Longitude := "" }
    editingLocationId := none }

/-- C6 witness at a concrete state and identifier. -/
theorem delete_spec_witness :
    ((handleDelete lmStateC6 "d1" true (.ok ())).state.locations.Sublist
        lmStateC6.locations ∧
      (∀ l ∈ (handleDelete lmStateC6 "d1" true (.ok ())).state.locations,
        l.id ≠ "d1") ∧
      (∀ l : Location, l.id ≠ "d1" →
        (handleDelete lmStateC6 "d1" true (.ok ())).state.locations.count l =
          lmStateC6.locations.count l) ∧
      (handleDelete lmStateC6 "d1" true (.ok ())).call = some (.delete "d1")) ∧
    (∀ remote, (handleDelete lmStateC6 "d1" false remote).state = lmStateC6 ∧
      (handleDelete lmStateC6 "d1" false remote).call = none ∧
      (handleDelete lmStateC6 "d1" false remote).toasts = []) :=
  delete_spec lmStateC6 "d1" (by simp [lmStateC6])

/-- C7: choosing dark persists theme=dark and sets the root dark flag;
choosing system removes the persisted key and sets the flag to the OS
preference at that instant; choosing light persists theme=light and clears
the flag. -/
theorem theme_change_spec (env : ThemeEnv) :
    ((handleThemeChange env "dark").storedTheme = some "dark" ∧
      (handleThemeChange env "dark").rootDark = true) ∧
    ((handleThemeChange env "system").storedTheme = none ∧
      (handleThemeChange env "system").rootDark = env.systemDark) ∧
    ((handleThemeChange env "light").storedTheme = some "light" ∧
      (handleThemeChange env "light").rootDark = false) := by
  refine ⟨⟨?_, ?_⟩, ⟨?_, ?_⟩, ?_, ?_⟩ <;> simp [handleThemeChange]

/-- C8: when the OS color-scheme preference changes, the registered
listener sets the root dark flag to the new preference exactly when no
theme is persisted; with a persisted (non-empty) theme the flag and the
stored key are untouched. -/
theorem system_listener_spec (env : ThemeEnv) (newPref : Bool) :
    (env.storedTheme = none →
      (onSystemThemeChange env newPref).rootDark = newPref) ∧
    (∀ t, env.storedTheme = some t → t ≠ "" →
      (onSystemThemeChange env newPref).rootDark = env.rootDark ∧
      (onSystemThemeChange env newPref).storedTheme = env.storedTheme) := by
  constructor
  · intro h
    unfold onSystemThemeChange
    simp [h, jsTruthy]
  · intro t ht hne
    unfold onSystemThemeChange
    simp [ht, jsTruthy, hne]

/-- Environment with no persisted theme, for the C8 witness. -/
def themeEnvNoneC8 : ThemeEnv :=
  { theme := "system", storedTheme := none, rootDark := false, systemDark := false }

/-- Environment with a persisted dark theme, for the C8 witness. -/
def themeEnvDarkC8 : ThemeEnv :=
  { theme := "dark", storedTheme := some "dark", rootDark := true, systemDark := false }

/-- C8 witness at two concrete environments. -/
theorem system_listener_spec_witness :
    (onSystemThemeChange themeEnvNoneC8 true).rootDark = true ∧
    (onSystemThemeChange themeEnvDarkC8 true).rootDark = themeEnvDarkC8.rootDark ∧
    (onSystemThemeChange themeEnvDarkC8 true).storedTheme =
      themeEnvDarkC8.storedTheme :=
  ⟨(system_listener_spec themeEnvNoneC8 true).1 rfl,
   ((system_listener_spec themeEnvDarkC8 true).2 "dark" rfl (by decide)).1,
   ((system_listener_spec themeEnvDarkC8 true).2 "dark" rfl (by decide)).2⟩

/-- C9: when any of the three fetches rejects, `fetchStatistics` stores the
static error message, leaves the stats untouched, clears the loading flag,
and the component renders the error banner, so no aggregate from the
fetches that did succeed is computed or shown. -/
theorem fetch_failure_spec (toDate : String → String) (today : String)
    (s0 : OverviewState) (sr : Except String StudentsResponse)
    (cr : Except String (Option (List Course)))
    (ar : Except String (Option (List AttendanceRecord)))
    (h : isErr sr = true ∨ isErr cr = true ∨ isErr ar = true) :
    (fetchStatistics toDate today s0 sr cr ar).error = some dashboardErrorMsg ∧
    (fetchStatistics toDate today s0 sr cr ar).stats = s0.stats ∧
    (fetchStatistics toDate today s0 sr cr ar).loading = false ∧
    renderOverview (fetchStatistics toDate today s0 sr cr ar) =
      .errorBanner dashboardErrorMsg := by
  cases sr <;> cases cr <;> cases ar <;>
    simp [isErr] at h <;>
    refine ⟨rfl, rfl, rfl, ?_⟩ <;>
      simp [fetchStatistics, renderOverview, jsTruthy, dashboardErrorMsg]

/-- C9 witness: the students fetch rejects while the other two resolve. -/
theorem fetch_failure_spec_witness :
    (fetchStatistics (fun s => s) "today" overviewInitial
        (.error "network down") (.ok none) (.ok none)).error =
      some dashboardErrorMsg ∧
    (fetchStatistics (fun s => s) "today" overviewInitial
        (.error "network down") (.ok none) (.ok none)).stats =
      overviewInitial.stats ∧
    (fetchStatistics (fun s => s) "today" overviewInitial
        (.error "network down") (.ok none) (.ok none)).loading = false ∧
    renderOverview (fetchStatistics (fun s => s) "today" overviewInitial
        (.error "network down") (.ok none) (.ok none)) =
      .errorBanner dashboardErrorMsg :=
  fetch_failure_spec (fun s => s) "today" overviewInitial
    (.error "network down") (.ok none) (.ok none) (Or.inl rfl)

theorem handleSubmit_none_add (s : LMState) (remote : Except String Location)
    (h : s.editingLocationId = none) :
    ∃ d, (handleSubmit s remote).call = some (.add d) := by
  unfold handleSubmit
  rw [h]
  cases remote <;> exact ⟨_, rfl⟩

/-- C10: a successful submit, whether it added or updated, resets the form
fields to empty strings and clears the editing id, so the submit that
follows it issues a create call; a rejected submit leaves the form fields
and the editing id unchanged. -/
theorem submit_reset_spec (s : LMState) (returned : Location)
    (remote2 : Except String Location) (msg : String) :
    ((handleSubmit s (.ok returned)).state.formData =
        { Latitude := "", Longitude := "" } ∧
      (handleSubmit s (.ok returned)).state.editingLocationId = none ∧
      (∃ d, (handleSubmit (handleSubmit s (.ok returned)).state remote2).call =
          some (.add d))) ∧
    ((handleSubmit s (.error msg)).state.formData = s.formData ∧
      (handleSubmit s (.error msg)).state.editingLocationId = s.editingLocationId) := by
  have hok := handleSubmit_ok_reset s returned
  have herr := handleSubmit_error_state s msg
  exact ⟨⟨hok.1, hok.2, handleSubmit_none_add _ remote2 hok.2⟩,
    by rw [herr], by rw [herr]⟩
